import Mathlib

/-!
# Producer test fixture (`kinesis-video-producer/tst/ProducerTestFixture.h`)

A shallow embedding of the fixture classes of the Kinesis Video producer tests:

* `TestCredentialProvider` (credential rotation),
* `TestDeviceInfoProvider` (storage budget),
* `ProducerTestBase` (environment defaults, `CreateTestStream`),

followed by the properties proved about them.

Machine integers are represented by `Nat`/`Int` with explicit reduction modulo `2^64`;
`getenv` is a function from variable names to optional values; the steady clock is an
explicit argument.
-/

set_option linter.unusedVariables false

namespace KinesisVideo

/-! ## Preprocessor constants -/

def ACCESS_KEY_ENV_VAR : String := "AWS_ACCESS_KEY_ID"
def SECRET_KEY_ENV_VAR : String := "AWS_SECRET_ACCESS_KEY"
def SESSION_TOKEN_ENV_VAR : String := "AWS_SESSION_TOKEN"
def DEFAULT_REGION_ENV_VAR : String := "AWS_DEFAULT_REGION"

/-- The macro `TEST_STREAMING_TOKEN_DURATION_IN_SECONDS`, the `int` expression `(45 * 60)`,
whose value 2700 is within the range of `int`. -/
def TEST_STREAMING_TOKEN_DURATION_IN_SECONDS : Int := 45 * 60

/-! ## Machine integers -/

/-- Conversion of a signed value to `uint64_t`: reduction modulo `2^64`. -/
def toUInt64 (x : Int) : Nat := (x % 2 ^ 64).toNat

/-- Conversion of a `uint64_t` value to `int64_t` (two's complement). -/
def toInt64 (u : Nat) : Int :=
  if u % 2 ^ 64 < 2 ^ 63 then ((u % 2 ^ 64 : Nat) : Int) else ((u % 2 ^ 64 : Nat) : Int) - 2 ^ 64

/-- Multiplication of two `int` (32-bit) operands; `none` when the product does not fit,
which is undefined behaviour in the source language. -/
def mulInt32 (a b : Int) : Option Int :=
  if -(2 ^ 31) ≤ a * b ∧ a * b < 2 ^ 31 then some (a * b) else none

/-- Multiplication of two `unsigned long long` operands: modulo `2^64`. -/
def mulUInt64 (a b : Nat) : Nat := (a * b) % 2 ^ 64

/-! ## Credentials -/

/-- Modelled from the spec: the class `Credentials` (declared in `Auth.h`, outside this
header) holds an access key, a secret key, an optional session token (the empty string when
absent) and an expiration, here the count of whole seconds it is set to. -/
structure Credentials where
  accessKey : String
  secretKey : String
  sessionToken : String
  expiration : Int
deriving DecidableEq, Repr

/-- The setter `Credentials::setExpiration`. -/
def Credentials.setExpiration (c : Credentials) (expiration : Int) : Credentials :=
  { c with expiration := expiration }

/-- Modelled from the spec: the base class `StaticCredentialProvider` (declared in `Auth.h`,
outside this header) keeps the credentials fixed at construction; they are the member
`credentials_` that `TestCredentialProvider::updateCredentials` reads. The class
`TestCredentialProvider` adds no other state. -/
structure TestCredentialProvider where
  credentials_ : Credentials
deriving DecidableEq, Repr

/-- The constructor `TestCredentialProvider(const Credentials&)`. -/
def TestCredentialProvider.new (credentials : Credentials) : TestCredentialProvider :=
  { credentials_ := credentials }

/-- The member `ROTATION_PERIOD`, a `std::chrono::duration<uint64_t>` initialised from
`std::chrono::seconds(TEST_STREAMING_TOKEN_DURATION_IN_SECONDS)`; the value is its tick
count in seconds. -/
def TestCredentialProvider.ROTATION_PERIOD : Nat :=
  toUInt64 TEST_STREAMING_TOKEN_DURATION_IN_SECONDS

/-- The method `TestCredentialProvider::updateCredentials(Credentials& credentials)`.

`now_time` is the value of
`duration_cast<seconds>(steady_clock::now().time_since_epoch())`, a signed count of
whole seconds. The sum `now_time + ROTATION_PERIOD` is formed in the common type of
`int64_t` and `uint64_t`, which is `uint64_t`; `std::chrono::seconds(...count())`
converts it back to a signed count. The result is the new value of the reference
argument `credentials`. -/
def TestCredentialProvider.updateCredentials (self : TestCredentialProvider)
    (now_time : Int) (credentials : Credentials) : Credentials :=
  -- Copy the stored creds forward
  let credentials := self.credentials_
  -- Update only the expiration
  let expiration_seconds : Nat :=
    (toUInt64 now_time + TestCredentialProvider.ROTATION_PERIOD) % 2 ^ 64
  credentials.setExpiration (toInt64 expiration_seconds)

/-! ## Environment and fixture construction -/

/-- The process environment as seen through `getenv`: `none` is the null pointer. -/
abbrev Environment := String → Option String

/-- The members of `ProducerTestBase` that its constructor initialises from constants and
from the environment. -/
structure ProducerTestBase where
  producer_thread_ : Nat
  start_producer_ : Bool
  stop_called_ : Bool
  stop_producer_ : Bool
  defaultRegion_ : String
  credentials_ : Credentials
  credential_provider_ : TestCredentialProvider
deriving DecidableEq, Repr

/-- The constructor `ProducerTestBase::ProducerTestBase()`. The macro `DEFAULT_AWS_REGION`
is defined outside this header and is taken as a parameter; `getenv` is the environment
lookup. -/
def ProducerTestBase.new (DEFAULT_AWS_REGION : String) (getenv : Environment) :
    ProducerTestBase :=
  let defaultRegion_ := DEFAULT_AWS_REGION
  -- Read the credentials from the environmental variables if defined. Use defaults if not.
  let accessKey : String :=
    match getenv ACCESS_KEY_ENV_VAR with
    | none => "AccessKey"
    | some v => v
  let secretKey : String :=
    match getenv SECRET_KEY_ENV_VAR with
    | none => "SecretKey"
    | some v => v
  let sessionTokenStr : String :=
    match getenv SESSION_TOKEN_ENV_VAR with
    | none => ""
    | some v => v
  let defaultRegion_ : String :=
    match getenv DEFAULT_REGION_ENV_VAR with
    | some v => v
    | none => defaultRegion_
  let credentials_ : Credentials :=
    { accessKey := accessKey
      secretKey := secretKey
      sessionToken := sessionTokenStr
      expiration := TEST_STREAMING_TOKEN_DURATION_IN_SECONDS }
  { producer_thread_ := 0
    start_producer_ := false
    stop_called_ := false
    stop_producer_ := false
    defaultRegion_ := defaultRegion_
    credentials_ := credentials_
    credential_provider_ := TestCredentialProvider.new credentials_ }

/-! ## Device info -/

/-- The macro `TEST_STORAGE_SIZE_IN_BYTES`, the expression `1024 * 1024 * 1024ull`:
the left product is an `int` product, its result is converted to `unsigned long long`
and multiplied by `1024ull`. `none` when the `int` product overflows. -/
def TEST_STORAGE_SIZE_IN_BYTES : Option Nat :=
  (mulInt32 1024 1024).map (fun p => mulUInt64 (toUInt64 p) 1024)

/-- The member `storageInfo` of the device info: the `UINT64` field `storageSize` and
the remaining fields, whose declaration is outside this header. -/
structure StorageInfo (σ : Type) where
  storageSize : Nat
  others : σ
deriving DecidableEq, Repr

/-- The type `device_info_t`: the member `storageInfo` and the remaining members, whose
declaration is outside this header. -/
structure DeviceInfo (σ δ : Type) where
  storageInfo : StorageInfo σ
  others : δ
deriving DecidableEq, Repr

/-- The method `TestDeviceInfoProvider::getDeviceInfo()`. The argument is the value of
`DefaultDeviceInfoProvider::getDeviceInfo()`. -/
def TestDeviceInfoProvider.getDeviceInfo {σ δ : Type} (defaultDeviceInfo : DeviceInfo σ δ) :
    Option (DeviceInfo σ δ) := do
  let device_info := defaultDeviceInfo
  let size ← TEST_STORAGE_SIZE_IN_BYTES
  let device_info :=
    { device_info with storageInfo := { device_info.storageInfo with storageSize := size } }
  return device_info

/-! ## Test streams -/

/-- The output of `sprintf` for the conversion `%d`: the decimal digits of the magnitude,
most significant first, after a minus sign for a negative argument. -/
def sprintf_d (value : Int) : String :=
  match value with
  | Int.ofNat n => String.mk (Nat.toDigits 10 n)
  | Int.negSucc n => String.mk ('-' :: Nat.toDigits 10 (n + 1))

/-- The call `sprintf(stream_name, "ScaryTestStream_%d", index)`. The capacity of the
buffer, `MAX_STREAM_NAME_LEN`, is defined outside this header. -/
def stream_name (index : Int) : String :=
  "ScaryTestStream_" ++ sprintf_d index

/-- The call `sprintf(tag_name, "testTag_%d_%d", index, i)`. The capacity of the buffer,
`MAX_TAG_NAME_LEN`, is defined outside this header. -/
def tag_name (index i : Int) : String :=
  "testTag_" ++ sprintf_d index ++ "_" ++ sprintf_d i

/-- The call `sprintf(tag_val, "testTag_%d_%d_Value", index, i)`. The capacity of the
buffer, `MAX_TAG_VALUE_LEN`, is defined outside this header. -/
def tag_val (index i : Int) : String :=
  "testTag_" ++ sprintf_d index ++ "_" ++ sprintf_d i ++ "_Value"

/-- A `std::map<string, string>`: its entries in increasing key order. -/
abbrev TagMap := List (String × String)

/-- The call `tags.emplace(std::make_pair(k, v))`: nothing happens when the key is
present, otherwise the entry is inserted at its place in key order (the lexicographic
order of the characters of the keys). -/
def TagMap.emplace (tags : TagMap) (k v : String) : TagMap :=
  if tags.any (fun e => e.1 == k) then tags
  else List.orderedInsert (fun a b => a.1.data ≤ b.1.data) (k, v) tags

/-- The arguments of the `StreamDefinition` constructor, in the order of the call. -/
structure StreamDefinition where
  stream_name : String
  retention_hours : Nat
  tags : TagMap
  kms_key_id : String
  streaming_type_realtime : Bool
  content_type : String
  max_latency_millis : Nat
  fragment_duration_seconds : Nat
  timecode_scale_millis : Nat
  key_frame_fragmentation : Bool
  frame_timecodes : Bool
  absolute_fragment_times : Bool
deriving DecidableEq, Repr

/-- The body of the tag loop of `CreateTestStream` for the counter value `i`. -/
def CreateTestStream.addTag (index : Int) (tags : TagMap) (i : Nat) : TagMap :=
  TagMap.emplace tags (tag_name index (Int.ofNat i)) (tag_val index (Int.ofNat i))

/-- The tag loop of `CreateTestStream`: `for (int i = 0; i < 5; i++)`, starting from the
empty map. -/
def CreateTestStream.tags (index : Int) : TagMap :=
  List.foldl (CreateTestStream.addTag index) [] (List.range 5)

/-- The method `ProducerTestBase::CreateTestStream(int index)`, up to the stream definition
it hands to `createStreamSync`. -/
def ProducerTestBase.CreateTestStream (index : Int) : StreamDefinition :=
  { stream_name := stream_name index
    retention_hours := 2
    tags := CreateTestStream.tags index
    kms_key_id := ""
    streaming_type_realtime := true
    content_type := "video/h264"
    max_latency_millis := 0
    fragment_duration_seconds := 2
    timecode_scale_millis := 1
    key_frame_fragmentation := true
    frame_timecodes := true
    absolute_fragment_times := false }

/-! ## Reading decimal digits back

The inverse of the digit rendering, used to show that distinct indices are rendered
differently. -/

/-- The value of a decimal digit character. -/
def digitValue (c : Char) : Nat := c.toNat - 48

/-- Reading a run of decimal digits, most significant first, onto an accumulator. -/
def readDecimalFrom (acc : Nat) (cs : List Char) : Nat :=
  cs.foldl (fun a c => a * 10 + digitValue c) acc

/-- Reading a run of decimal digits, most significant first. -/
def readDecimal (cs : List Char) : Nat := readDecimalFrom 0 cs

/-! ## Credential rotation: arithmetic of the expiration -/

theorem ROTATION_PERIOD_eq : TestCredentialProvider.ROTATION_PERIOD = 2700 := by
  decide

/-- Inside the range where neither the unsigned sum nor the conversion back to a signed
count wraps, the expiration computed at clock reading `now` is `now + 2700`. -/
theorem expiration_no_wrap (now : Int) (h0 : 0 ≤ now) (h1 : now + 2700 < 2 ^ 63) :
    toInt64 ((toUInt64 now + TestCredentialProvider.ROTATION_PERIOD) % 2 ^ 64) = now + 2700 := by
  rw [ROTATION_PERIOD_eq]
  unfold toInt64 toUInt64
  split_ifs <;> omega

theorem updateCredentials_expiration (p : TestCredentialProvider) (now : Int) (c : Credentials) :
    (p.updateCredentials now c).expiration =
      toInt64 ((toUInt64 now + TestCredentialProvider.ROTATION_PERIOD) % 2 ^ 64) := by
  simp only [TestCredentialProvider.updateCredentials, Credentials.setExpiration]

theorem updateCredentials_accessKey (p : TestCredentialProvider) (now : Int) (c : Credentials) :
    (p.updateCredentials now c).accessKey = p.credentials_.accessKey := by
  simp only [TestCredentialProvider.updateCredentials, Credentials.setExpiration]

theorem updateCredentials_secretKey (p : TestCredentialProvider) (now : Int) (c : Credentials) :
    (p.updateCredentials now c).secretKey = p.credentials_.secretKey := by
  simp only [TestCredentialProvider.updateCredentials, Credentials.setExpiration]

theorem updateCredentials_sessionToken (p : TestCredentialProvider) (now : Int)
    (c : Credentials) :
    (p.updateCredentials now c).sessionToken = p.credentials_.sessionToken := by
  simp only [TestCredentialProvider.updateCredentials, Credentials.setExpiration]

/-! ## Credential rotation: claims -/

/-- C1 (as stated, refuted): with the provider that the fixture builds from an empty
environment, a credentials object whose access key is "Other" has the access key
"AccessKey" after `updateCredentials`, not the one it had before the call. -/
theorem C1_counterexample :
    ((ProducerTestBase.new "us-west-2" (fun _ => none)).credential_provider_.updateCredentials 100
        { accessKey := "Other", secretKey := "SecretKey", sessionToken := "",
          expiration := 2700 }).accessKey = "AccessKey" ∧
    ((ProducerTestBase.new "us-west-2" (fun _ => none)).credential_provider_.updateCredentials 100
        { accessKey := "Other", secretKey := "SecretKey", sessionToken := "",
          expiration := 2700 }).accessKey ≠
      (Credentials.mk "Other" "SecretKey" "" 2700).accessKey := by
  decide

/-- C1 (amended): after `updateCredentials` the access key, secret key and session token
of the object are the ones stored in the provider at construction; they are therefore
equal to the ones the object had before the call whenever the object carried the stored
values, and then no field other than the expiration differs. -/
theorem C1_updateCredentials_keeps_stored_fields (p : TestCredentialProvider) (now : Int)
    (c : Credentials) :
    (p.updateCredentials now c).accessKey = p.credentials_.accessKey ∧
    (p.updateCredentials now c).secretKey = p.credentials_.secretKey ∧
    (p.updateCredentials now c).sessionToken = p.credentials_.sessionToken ∧
    (c.accessKey = p.credentials_.accessKey → c.secretKey = p.credentials_.secretKey →
      c.sessionToken = p.credentials_.sessionToken →
        (p.updateCredentials now c).accessKey = c.accessKey ∧
        (p.updateCredentials now c).secretKey = c.secretKey ∧
        (p.updateCredentials now c).sessionToken = c.sessionToken ∧
        p.updateCredentials now c = c.setExpiration (p.updateCredentials now c).expiration) := by
  refine ⟨updateCredentials_accessKey p now c, updateCredentials_secretKey p now c,
    updateCredentials_sessionToken p now c, ?_⟩
  intro ha hs ht
  refine ⟨(updateCredentials_accessKey p now c).trans ha.symm,
    (updateCredentials_secretKey p now c).trans hs.symm,
    (updateCredentials_sessionToken p now c).trans ht.symm, ?_⟩
  obtain ⟨a, b, t, e⟩ := c
  obtain ⟨⟨a0, b0, t0, e0⟩⟩ := p
  simp only at ha hs ht
  subst ha hs ht
  simp only [TestCredentialProvider.updateCredentials, Credentials.setExpiration]

theorem C1_witness :
    (((TestCredentialProvider.new (Credentials.mk "AccessKey" "SecretKey" "" 2700)).updateCredentials
        100 (Credentials.mk "AccessKey" "SecretKey" "" 17)).accessKey = "AccessKey") ∧
    ((TestCredentialProvider.new (Credentials.mk "AccessKey" "SecretKey" "" 2700)).updateCredentials
        100 (Credentials.mk "AccessKey" "SecretKey" "" 17) =
      (Credentials.mk "AccessKey" "SecretKey" "" 17).setExpiration 2800) :=
  ⟨(C1_updateCredentials_keeps_stored_fields
      (TestCredentialProvider.new (Credentials.mk "AccessKey" "SecretKey" "" 2700)) 100
      (Credentials.mk "AccessKey" "SecretKey" "" 17)).1,
   ((C1_updateCredentials_keeps_stored_fields
      (TestCredentialProvider.new (Credentials.mk "AccessKey" "SecretKey" "" 2700)) 100
      (Credentials.mk "AccessKey" "SecretKey" "" 17)).2.2.2 rfl rfl rfl).2.2.2⟩

/-- C2: for a clock reading `now` with `0 ≤ now` and `now + 2700 < 2^63`, the credentials
written by `updateCredentials` have expiration exactly `now + ROTATION_PERIOD`, where
`ROTATION_PERIOD` is 45 minutes, `45 * 60 = 2700` seconds. -/
theorem C2_expiration_is_now_plus_period (p : TestCredentialProvider) (c : Credentials)
    (now : Int) (h0 : 0 ≤ now) (h1 : now + 2700 < 2 ^ 63) :
    (p.updateCredentials now c).expiration = now + TestCredentialProvider.ROTATION_PERIOD ∧
    TestCredentialProvider.ROTATION_PERIOD = 45 * 60 ∧
    (p.updateCredentials now c).expiration = now + 2700 := by
  rw [updateCredentials_expiration, expiration_no_wrap now h0 h1, ROTATION_PERIOD_eq]
  exact ⟨rfl, rfl, rfl⟩

theorem C2_witness :
    ((TestCredentialProvider.new (Credentials.mk "AccessKey" "SecretKey" "" 2700)).updateCredentials
        1000 (Credentials.mk "AccessKey" "SecretKey" "" 2700)).expiration = 1000 + 2700 :=
  (C2_expiration_is_now_plus_period
    (TestCredentialProvider.new (Credentials.mk "AccessKey" "SecretKey" "" 2700))
    (Credentials.mk "AccessKey" "SecretKey" "" 2700) 1000 (by decide) (by decide)).2.2

/-- C3 (as stated, refuted): the fixture's provider rotates the fixture's credentials at
clock reading 100, and rotates the resulting object again within the same second. The
second call leaves the expiration at 2800: it is not strictly greater than before the
call, and the difference is 0, not 2700. -/
theorem C3_counterexample :
    ((ProducerTestBase.new "us-west-2" (fun _ => none)).credential_provider_.updateCredentials 100
      ((ProducerTestBase.new "us-west-2" (fun _ => none)).credential_provider_.updateCredentials
        100 (ProducerTestBase.new "us-west-2" (fun _ => none)).credentials_)).expiration = 2800 ∧
    ((ProducerTestBase.new "us-west-2" (fun _ => none)).credential_provider_.updateCredentials
        100 (ProducerTestBase.new "us-west-2" (fun _ => none)).credentials_).expiration = 2800 ∧
    ¬ (((ProducerTestBase.new "us-west-2" (fun _ => none)).credential_provider_.updateCredentials
        100 (ProducerTestBase.new "us-west-2" (fun _ => none)).credentials_).expiration <
      ((ProducerTestBase.new "us-west-2" (fun _ => none)).credential_provider_.updateCredentials
        100
        ((ProducerTestBase.new "us-west-2" (fun _ => none)).credential_provider_.updateCredentials
          100 (ProducerTestBase.new "us-west-2" (fun _ => none)).credentials_)).expiration) := by
  decide

/-- C3 (amended): for a call of `updateCredentials` at a clock reading `now` with `0 ≤ now`
and `now + 2700 < 2^63`, the expiration after the call exceeds the clock reading by exactly
the rotation period of 2700 seconds; it is strictly greater than the expiration the object
had before the call exactly when that one is below `now + 2700`, and it exceeds it by
exactly 2700 exactly when that one equals `now`. -/
theorem C3_expiration_advance (p : TestCredentialProvider) (c : Credentials) (now : Int)
    (h0 : 0 ≤ now) (h1 : now + 2700 < 2 ^ 63) :
    (p.updateCredentials now c).expiration - now = TestCredentialProvider.ROTATION_PERIOD ∧
    (p.updateCredentials now c).expiration - now = 2700 ∧
    (c.expiration < (p.updateCredentials now c).expiration ↔ c.expiration < now + 2700) ∧
    ((p.updateCredentials now c).expiration - c.expiration = 2700 ↔ c.expiration = now) := by
  rw [updateCredentials_expiration, expiration_no_wrap now h0 h1, ROTATION_PERIOD_eq]
  refine ⟨by simp, by simp, Iff.rfl, ?_⟩
  constructor <;> intro h <;> omega

theorem C3_witness :
    ((TestCredentialProvider.new (Credentials.mk "AccessKey" "SecretKey" "" 2700)).updateCredentials
        100 (Credentials.mk "AccessKey" "SecretKey" "" 2700)).expiration - 100 = 2700 :=
  (C3_expiration_advance
    (TestCredentialProvider.new (Credentials.mk "AccessKey" "SecretKey" "" 2700))
    (Credentials.mk "AccessKey" "SecretKey" "" 2700) 100 (by decide) (by decide)).2.1

/-- C4: for a clock reading `now` with `0 ≤ now` and `now + 2700 < 2^63`, the credentials
produced by `updateCredentials` at `now` have an expiration strictly greater than `now`:
they are not handed out already expired. -/
theorem C4_expiration_in_future (p : TestCredentialProvider) (c : Credentials) (now : Int)
    (h0 : 0 ≤ now) (h1 : now + 2700 < 2 ^ 63) :
    now < (p.updateCredentials now c).expiration := by
  rw [updateCredentials_expiration, expiration_no_wrap now h0 h1]
  omega

theorem C4_witness :
    (1000 : Int) <
      ((TestCredentialProvider.new (Credentials.mk "AccessKey" "SecretKey" "" 2700)).updateCredentials
        1000 (Credentials.mk "AccessKey" "SecretKey" "" 2700)).expiration :=
  C4_expiration_in_future
    (TestCredentialProvider.new (Credentials.mk "AccessKey" "SecretKey" "" 2700))
    (Credentials.mk "AccessKey" "SecretKey" "" 2700) 1000 (by decide) (by decide)

/-- C8: for clock readings `t1 ≤ t2`, both in the non-wrapping range, the expiration written
at `t2` is at least the one written at `t1`, the two differ by exactly `t2 - t1`, and two
rotations within the same second give the same expiration. -/
theorem C8_expiration_monotone (p q : TestCredentialProvider) (c d : Credentials) (t1 t2 : Int)
    (h0 : 0 ≤ t1) (h12 : t1 ≤ t2) (h2 : t2 + 2700 < 2 ^ 63) :
    (p.updateCredentials t1 c).expiration ≤ (q.updateCredentials t2 d).expiration ∧
    (q.updateCredentials t2 d).expiration - (p.updateCredentials t1 c).expiration = t2 - t1 ∧
    (t1 = t2 → (p.updateCredentials t1 c).expiration = (q.updateCredentials t2 d).expiration) := by
  rw [updateCredentials_expiration, updateCredentials_expiration,
    expiration_no_wrap t1 h0 (by omega), expiration_no_wrap t2 (by omega) h2]
  refine ⟨by omega, by omega, ?_⟩
  intro h
  omega

theorem C8_witness :
    ((TestCredentialProvider.new (Credentials.mk "AccessKey" "SecretKey" "" 2700)).updateCredentials
        1060 (Credentials.mk "AccessKey" "SecretKey" "" 3700)).expiration -
      ((TestCredentialProvider.new (Credentials.mk "AccessKey" "SecretKey" "" 2700)).updateCredentials
        1000 (Credentials.mk "AccessKey" "SecretKey" "" 2700)).expiration = 1060 - 1000 :=
  (C8_expiration_monotone
    (TestCredentialProvider.new (Credentials.mk "AccessKey" "SecretKey" "" 2700))
    (TestCredentialProvider.new (Credentials.mk "AccessKey" "SecretKey" "" 2700))
    (Credentials.mk "AccessKey" "SecretKey" "" 2700)
    (Credentials.mk "AccessKey" "SecretKey" "" 3700) 1000 1060
    (by decide) (by decide) (by decide)).2.1

/-- C10: two credentials objects passed to `updateCredentials` of one provider at the same
clock reading come out equal: the result is the stored credentials with only the
expiration replaced, whatever the fields of the object passed in. -/
theorem C10_result_independent_of_argument (p : TestCredentialProvider) (now : Int)
    (c1 c2 : Credentials) :
    p.updateCredentials now c1 = p.updateCredentials now c2 ∧
    p.updateCredentials now c1 =
      { accessKey := p.credentials_.accessKey
        secretKey := p.credentials_.secretKey
        sessionToken := p.credentials_.sessionToken
        expiration :=
          toInt64 ((toUInt64 now + TestCredentialProvider.ROTATION_PERIOD) % 2 ^ 64) } := by
  constructor <;>
    simp only [TestCredentialProvider.updateCredentials, Credentials.setExpiration]

/-! ## Fixture construction: claims -/

/-- C5: the constructor takes the access key, secret key, session token and region from
`AWS_ACCESS_KEY_ID`, `AWS_SECRET_ACCESS_KEY`, `AWS_SESSION_TOKEN` and `AWS_DEFAULT_REGION`
when the variable is set, and otherwise uses "AccessKey", "SecretKey", the empty string
and `DEFAULT_AWS_REGION`; each setting depends only on its own variable. -/
theorem C5_constructor_environment (DEFAULT_AWS_REGION : String) (env : Environment) :
    (ProducerTestBase.new DEFAULT_AWS_REGION env).credentials_.accessKey =
      (env "AWS_ACCESS_KEY_ID").getD "AccessKey" ∧
    (ProducerTestBase.new DEFAULT_AWS_REGION env).credentials_.secretKey =
      (env "AWS_SECRET_ACCESS_KEY").getD "SecretKey" ∧
    (ProducerTestBase.new DEFAULT_AWS_REGION env).credentials_.sessionToken =
      (env "AWS_SESSION_TOKEN").getD "" ∧
    (ProducerTestBase.new DEFAULT_AWS_REGION env).defaultRegion_ =
      (env "AWS_DEFAULT_REGION").getD DEFAULT_AWS_REGION ∧
    (ProducerTestBase.new DEFAULT_AWS_REGION env).credential_provider_.credentials_ =
      (ProducerTestBase.new DEFAULT_AWS_REGION env).credentials_ ∧
    (∀ other : Environment,
      (other "AWS_ACCESS_KEY_ID" = env "AWS_ACCESS_KEY_ID" →
        (ProducerTestBase.new DEFAULT_AWS_REGION other).credentials_.accessKey =
          (ProducerTestBase.new DEFAULT_AWS_REGION env).credentials_.accessKey) ∧
      (other "AWS_SECRET_ACCESS_KEY" = env "AWS_SECRET_ACCESS_KEY" →
        (ProducerTestBase.new DEFAULT_AWS_REGION other).credentials_.secretKey =
          (ProducerTestBase.new DEFAULT_AWS_REGION env).credentials_.secretKey) ∧
      (other "AWS_SESSION_TOKEN" = env "AWS_SESSION_TOKEN" →
        (ProducerTestBase.new DEFAULT_AWS_REGION other).credentials_.sessionToken =
          (ProducerTestBase.new DEFAULT_AWS_REGION env).credentials_.sessionToken) ∧
      (other "AWS_DEFAULT_REGION" = env "AWS_DEFAULT_REGION" →
        (ProducerTestBase.new DEFAULT_AWS_REGION other).defaultRegion_ =
          (ProducerTestBase.new DEFAULT_AWS_REGION env).defaultRegion_)) := by
  have key : ∀ e : Environment,
      (ProducerTestBase.new DEFAULT_AWS_REGION e).credentials_.accessKey =
        (e "AWS_ACCESS_KEY_ID").getD "AccessKey" ∧
      (ProducerTestBase.new DEFAULT_AWS_REGION e).credentials_.secretKey =
        (e "AWS_SECRET_ACCESS_KEY").getD "SecretKey" ∧
      (ProducerTestBase.new DEFAULT_AWS_REGION e).credentials_.sessionToken =
        (e "AWS_SESSION_TOKEN").getD "" ∧
      (ProducerTestBase.new DEFAULT_AWS_REGION e).defaultRegion_ =
        (e "AWS_DEFAULT_REGION").getD DEFAULT_AWS_REGION := by
    intro e
    simp only [ProducerTestBase.new, ACCESS_KEY_ENV_VAR, SECRET_KEY_ENV_VAR,
      SESSION_TOKEN_ENV_VAR, DEFAULT_REGION_ENV_VAR]
    refine ⟨?_, ?_, ?_, ?_⟩
    · cases e "AWS_ACCESS_KEY_ID" <;> rfl
    · cases e "AWS_SECRET_ACCESS_KEY" <;> rfl
    · cases e "AWS_SESSION_TOKEN" <;> rfl
    · cases e "AWS_DEFAULT_REGION" <;> rfl
  obtain ⟨ka, ks, kt, kr⟩ := key env
  refine ⟨ka, ks, kt, kr, ?_, ?_⟩
  · simp only [ProducerTestBase.new, TestCredentialProvider.new]
  · intro other
    obtain ⟨oa, os, ot, or_⟩ := key other
    refine ⟨?_, ?_, ?_, ?_⟩
    · intro h
      rw [oa, ka, h]
    · intro h
      rw [os, ks, h]
    · intro h
      rw [ot, kt, h]
    · intro h
      rw [or_, kr, h]

theorem C5_witness :
    (ProducerTestBase.new "us-west-2"
        (fun v => if v = "AWS_ACCESS_KEY_ID" then some "AKIDEXAMPLE"
          else if v = "AWS_DEFAULT_REGION" then some "eu-west-1" else none)).credentials_.accessKey =
      (ProducerTestBase.new "us-west-2"
        (fun v => if v = "AWS_ACCESS_KEY_ID" then some "AKIDEXAMPLE"
          else none)).credentials_.accessKey ∧
    (ProducerTestBase.new "us-west-2"
        (fun v => if v = "AWS_ACCESS_KEY_ID" then some "AKIDEXAMPLE"
          else none)).credentials_.accessKey = (some "AKIDEXAMPLE").getD "AccessKey" :=
  ⟨((C5_constructor_environment "us-west-2"
      (fun v => if v = "AWS_ACCESS_KEY_ID" then some "AKIDEXAMPLE" else none)).2.2.2.2.2
      (fun v => if v = "AWS_ACCESS_KEY_ID" then some "AKIDEXAMPLE"
        else if v = "AWS_DEFAULT_REGION" then some "eu-west-1" else none)).1 (by decide),
   (C5_constructor_environment "us-west-2"
      (fun v => if v = "AWS_ACCESS_KEY_ID" then some "AKIDEXAMPLE" else none)).1⟩

/-! ## Device info: claims -/

/-- C6: `getDeviceInfo` returns the default provider's device info with
`storageInfo.storageSize` replaced by 1 GiB, `1024 * 1024 * 1024 = 1073741824` bytes, the
`int` sub-product `1024 * 1024` being computed without overflow, and every other field
equal to the default provider's value. -/
theorem C6_getDeviceInfo_storage_size {σ δ : Type} (defaultDeviceInfo : DeviceInfo σ δ) :
    TestDeviceInfoProvider.getDeviceInfo defaultDeviceInfo =
      some { storageInfo := { storageSize := 1073741824
                              others := defaultDeviceInfo.storageInfo.others }
             others := defaultDeviceInfo.others } ∧
    mulInt32 1024 1024 = some 1048576 ∧
    TEST_STORAGE_SIZE_IN_BYTES = some (1024 * 1024 * 1024) ∧
    (1024 * 1024 * 1024 : Nat) = 1073741824 := by
  have hsize : TEST_STORAGE_SIZE_IN_BYTES = some 1073741824 := by decide
  refine ⟨?_, by decide, hsize, by norm_num⟩
  simp [TestDeviceInfoProvider.getDeviceInfo, hsize]

/-- C7 (the code at a concrete device info): for a default device info with a storage size
of 128 MiB, `getDeviceInfo` returns the storage size 1073741824 (1 GiB), which is not
268435456 (256 MB). -/
theorem C7_getDeviceInfo_not_256MB :
    (TestDeviceInfoProvider.getDeviceInfo
        ({ storageInfo := { storageSize := 134217728, others := () }, others := () } :
          DeviceInfo Unit Unit)).map (fun r => r.storageInfo.storageSize) = some 1073741824 ∧
    (TestDeviceInfoProvider.getDeviceInfo
        ({ storageInfo := { storageSize := 134217728, others := () }, others := () } :
          DeviceInfo Unit Unit)).map (fun r => r.storageInfo.storageSize) ≠
      some (256 * 1024 * 1024) := by
  decide

/-! ## Decimal rendering -/

theorem digitValue_digitChar (d : Nat) (h : d < 10) : digitValue (Nat.digitChar d) = d := by
  interval_cases d <;> rfl

theorem digitChar_ne_minus (d : Nat) (h : d < 10) : Nat.digitChar d ≠ '-' := by
  interval_cases d <;> decide

theorem readDecimalFrom_toDigitsCore (fuel : Nat) :
    ∀ (n : Nat) (ds : List Char), n < fuel →
      readDecimalFrom 0 (Nat.toDigitsCore 10 fuel n ds) = readDecimalFrom n ds := by
  induction fuel with
  | zero => intro n ds h; omega
  | succ fuel ih =>
    intro n ds h
    have hd : digitValue (Nat.digitChar (n % 10)) = n % 10 :=
      digitValue_digitChar _ (Nat.mod_lt _ (by decide))
    simp only [Nat.toDigitsCore]
    split_ifs with hz
    · simp only [readDecimalFrom, List.foldl_cons, hd]
      congr 1
      omega
    · rw [ih (n / 10) _ (by omega)]
      simp only [readDecimalFrom, List.foldl_cons, hd]
      congr 1
      omega

theorem readDecimal_toDigits (n : Nat) : readDecimal (Nat.toDigits 10 n) = n := by
  simp only [readDecimal, Nat.toDigits]
  rw [readDecimalFrom_toDigitsCore (n + 1) n [] (by omega)]
  rfl

theorem toDigits_injective (n m : Nat) (h : Nat.toDigits 10 n = Nat.toDigits 10 m) : n = m := by
  have := congrArg readDecimal h
  rwa [readDecimal_toDigits, readDecimal_toDigits] at this

theorem minus_not_mem_toDigitsCore (fuel : Nat) :
    ∀ (n : Nat) (ds : List Char), '-' ∉ ds → '-' ∉ Nat.toDigitsCore 10 fuel n ds := by
  induction fuel with
  | zero => intro n ds h; simpa only [Nat.toDigitsCore] using h
  | succ fuel ih =>
    intro n ds h
    have hd : '-' ∉ Nat.digitChar (n % 10) :: ds := by
      intro hmem
      rcases List.mem_cons.mp hmem with h1 | h1
      · exact digitChar_ne_minus _ (Nat.mod_lt _ (by decide)) h1.symm
      · exact h h1
    simp only [Nat.toDigitsCore]
    split_ifs with hz
    · exact hd
    · exact ih _ _ hd

theorem minus_not_mem_toDigits (n : Nat) : '-' ∉ Nat.toDigits 10 n :=
  minus_not_mem_toDigitsCore _ _ _ (List.not_mem_nil _)

theorem toDigits_of_lt_ten (n : Nat) (h : n < 10) : Nat.toDigits 10 n = [Nat.digitChar n] := by
  interval_cases n <;> rfl

theorem sprintf_d_ofNat_data (n : Nat) : (sprintf_d (Int.ofNat n)).data = Nat.toDigits 10 n :=
  rfl

theorem sprintf_d_negSucc_data (n : Nat) :
    (sprintf_d (Int.negSucc n)).data = '-' :: Nat.toDigits 10 (n + 1) :=
  rfl

theorem sprintf_d_injective (i j : Int) (h : sprintf_d i = sprintf_d j) : i = j := by
  have hd : (sprintf_d i).data = (sprintf_d j).data := congrArg String.data h
  cases i with
  | ofNat n =>
    cases j with
    | ofNat m =>
      rw [sprintf_d_ofNat_data, sprintf_d_ofNat_data] at hd
      rw [toDigits_injective n m hd]
    | negSucc m =>
      rw [sprintf_d_ofNat_data, sprintf_d_negSucc_data] at hd
      exact absurd (hd ▸ List.mem_cons_self _ _ : '-' ∈ Nat.toDigits 10 n)
        (minus_not_mem_toDigits n)
  | negSucc n =>
    cases j with
    | ofNat m =>
      rw [sprintf_d_ofNat_data, sprintf_d_negSucc_data] at hd
      exact absurd (hd ▸ List.mem_cons_self _ _ : '-' ∈ Nat.toDigits 10 m)
        (minus_not_mem_toDigits m)
    | negSucc m =>
      rw [sprintf_d_negSucc_data, sprintf_d_negSucc_data] at hd
      have hnm := toDigits_injective _ _ (List.cons.inj hd).2
      have : n = m := by omega
      rw [this]

theorem stream_name_injective (i j : Int) (h : stream_name i = stream_name j) : i = j := by
  apply sprintf_d_injective
  simp only [stream_name, String.ext_iff, String.data_append] at h
  exact String.ext (List.append_cancel_left h)

theorem sprintf_d_small (k : Int) (h0 : 0 ≤ k) (h5 : k < 5) :
    (sprintf_d k).data.length = 1 := by
  obtain ⟨n, rfl⟩ := Int.eq_ofNat_of_zero_le h0
  have hn : n < 10 := by omega
  show (Nat.toDigits 10 n).length = 1
  rw [toDigits_of_lt_ten n hn]
  rfl

theorem tag_name_injective (i j k l : Int) (hk0 : 0 ≤ k) (hk : k < 5) (hl0 : 0 ≤ l) (hl : l < 5)
    (h : tag_name i k = tag_name j l) : i = j ∧ k = l := by
  simp only [tag_name, String.ext_iff, String.data_append] at h
  have hlen : (sprintf_d k).data.length = (sprintf_d l).data.length := by
    rw [sprintf_d_small k hk0 hk, sprintf_d_small l hl0 hl]
  obtain ⟨h1, h2⟩ := List.append_inj' h hlen
  obtain ⟨h3, -⟩ := List.append_inj' h1 rfl
  exact ⟨sprintf_d_injective i j (String.ext (List.append_cancel_left h3)),
    sprintf_d_injective k l (String.ext h2)⟩

/-! ## The tag map -/

theorem emplace_of_fresh_key (tags : TagMap) (k v : String) (h : ∀ e ∈ tags, e.1 ≠ k) :
    (TagMap.emplace tags k v).length = tags.length + 1 ∧
    ∀ e, e ∈ TagMap.emplace tags k v ↔ e = (k, v) ∨ e ∈ tags := by
  have hany : tags.any (fun e => e.1 == k) = false := by
    rw [List.any_eq_false]
    intro e he
    simpa using h e he
  simp only [TagMap.emplace, hany]
  exact ⟨List.orderedInsert_length _ _ _, fun e => List.mem_orderedInsert _⟩

theorem tags_loop_invariant (index : Int) (n : Nat) (hn : n ≤ 5) :
    (List.foldl (CreateTestStream.addTag index) [] (List.range n)).length = n ∧
    ∀ e, e ∈ List.foldl (CreateTestStream.addTag index) [] (List.range n) ↔
      ∃ i : Nat, i < n ∧ e = (tag_name index (Int.ofNat i), tag_val index (Int.ofNat i)) := by
  induction n with
  | zero => simp
  | succ n ih =>
    obtain ⟨hlen, hmem⟩ := ih (by omega)
    rw [List.range_succ, List.foldl_append, List.foldl_cons, List.foldl_nil]
    have hfresh : ∀ e ∈ List.foldl (CreateTestStream.addTag index) [] (List.range n),
        e.1 ≠ tag_name index (Int.ofNat n) := by
      intro e he heq
      obtain ⟨i, hi, rfl⟩ := (hmem e).mp he
      have := (tag_name_injective index index (Int.ofNat i) (Int.ofNat n)
        (Int.ofNat_zero_le i) (by simp only [Int.ofNat_eq_coe]; omega)
        (Int.ofNat_zero_le n) (by simp only [Int.ofNat_eq_coe]; omega) heq).2
      simp only [Int.ofNat_eq_coe] at this
      omega
    obtain ⟨hlen2, hmem2⟩ := emplace_of_fresh_key _ _ (tag_val index (Int.ofNat n)) hfresh
    refine ⟨?_, ?_⟩
    · show (TagMap.emplace _ _ _).length = n + 1
      rw [hlen2, hlen]
    intro e
    show e ∈ TagMap.emplace _ _ _ ↔ _
    rw [hmem2, hmem]
    constructor
    · rintro (h | ⟨i, hi, h⟩)
      · exact ⟨n, by omega, h⟩
      · exact ⟨i, by omega, h⟩
    · rintro ⟨i, hi, h⟩
      by_cases hin : i = n
      · subst hin
        exact Or.inl h
      · exact Or.inr ⟨i, by omega, h⟩

theorem CreateTestStream_tags (index : Int) :
    (ProducerTestBase.CreateTestStream index).tags =
      List.foldl (CreateTestStream.addTag index) [] (List.range 5) := by
  simp only [ProducerTestBase.CreateTestStream, CreateTestStream.tags]

theorem CreateTestStream_stream_name (index : Int) :
    (ProducerTestBase.CreateTestStream index).stream_name = stream_name index := by
  simp only [ProducerTestBase.CreateTestStream]

/-! ## Test streams: claims -/

/-- C9: stream names built for different indices are different; tag names built for
different pairs of an index and a counter in `0..4` are different; the tag map of each
stream has exactly 5 entries, one for each counter; and the definitions of streams
created for distinct indices carry different names. -/
theorem C9_stream_and_tag_names_distinct :
    (∀ i j : Int, i ≠ j → stream_name i ≠ stream_name j) ∧
    (∀ i j k l : Int, 0 ≤ k → k < 5 → 0 ≤ l → l < 5 → (i, k) ≠ (j, l) →
      tag_name i k ≠ tag_name j l) ∧
    (∀ index : Int, (ProducerTestBase.CreateTestStream index).tags.length = 5) ∧
    (∀ (index : Int) (e : String × String), e ∈ (ProducerTestBase.CreateTestStream index).tags ↔
      ∃ k : Nat, k < 5 ∧ e = (tag_name index (Int.ofNat k), tag_val index (Int.ofNat k))) ∧
    (∀ i j : Int, i ≠ j →
      (ProducerTestBase.CreateTestStream i).stream_name ≠
        (ProducerTestBase.CreateTestStream j).stream_name) := by
  refine ⟨?_, ?_, ?_, ?_, ?_⟩
  · intro i j hij h
    exact hij (stream_name_injective i j h)
  · intro i j k l hk0 hk hl0 hl hne h
    obtain ⟨h1, h2⟩ := tag_name_injective i j k l hk0 hk hl0 hl h
    exact hne (by rw [h1, h2])
  · intro index
    rw [CreateTestStream_tags]
    exact (tags_loop_invariant index 5 (le_refl 5)).1
  · intro index e
    rw [CreateTestStream_tags]
    exact (tags_loop_invariant index 5 (le_refl 5)).2 e
  · intro i j hij h
    rw [CreateTestStream_stream_name, CreateTestStream_stream_name] at h
    exact hij (stream_name_injective i j h)

theorem C9_witness :
    stream_name 3 ≠ stream_name 7 ∧ tag_name 3 1 ≠ tag_name 3 4 ∧
    (ProducerTestBase.CreateTestStream 3).tags.length = 5 :=
  ⟨C9_stream_and_tag_names_distinct.1 3 7 (by decide),
   C9_stream_and_tag_names_distinct.2.1 3 3 1 4 (by decide) (by decide) (by decide) (by decide)
     (by decide),
   C9_stream_and_tag_names_distinct.2.2.1 3⟩

end KinesisVideo
